import Mathlib

/-!
Verification development for the blogicum blog application.

The definitions below are a shallow embedding of the application's data model
(`blog/models.py`), its query/service layer (`blog/service.py`) and its request
handlers (`blog/views.py`, `blog/mixins.py`, `blog/urls.py`).  Django ORM
querysets are modelled as Lean lists, the database as a record of lists, users
and timestamps as plain data, and each request handler as a function from the
database and request data to a response together with the post-state database.
-/

namespace Blogicum

/-- A user of the external auth model (`django.contrib.auth`): identity,
`username`, and the `is_staff` flag consulted by the spec's delete rule. -/
structure User where
  id : Nat
  username : String
  is_staff : Bool
  deriving DecidableEq, Repr

/-- `blog/models.py` `Category`: a publishable grouping with a slug.  Fields
not consulted by any handler (title, description, timestamps) are omitted. -/
structure Category where
  id : Nat
  slug : String
  is_published : Bool
  deriving DecidableEq, Repr

/-- `blog/models.py` `Post`: `author` is a required user reference,
`category` and `location` are nullable references (`on_delete=SET_NULL`),
`pub_date` may lie in the future, and `is_published` comes from the shared
publishable base.  `pub_date` is an integer timestamp. -/
structure Post where
  id : Nat
  author : Nat
  text : String
  pub_date : Int
  is_published : Bool
  category : Option Nat
  location : Option Nat
  deriving DecidableEq, Repr

/-- `blog/models.py` `Comment`: text plus required references to its post
(`comment_post`, cascade delete) and author.  It inherits the publishable
base, so it also carries its own `is_published` flag. -/
structure Comment where
  id : Nat
  comment_post : Nat
  author : Nat
  text : String
  is_published : Bool
  deriving DecidableEq, Repr

/-- The relational store backing the ORM: one table per entity. -/
structure Db where
  users : List User
  categories : List Category
  posts : List Post
  comments : List Comment
  deriving DecidableEq, Repr

/-- Row lookup for the `category` foreign key of a post. -/
def findCategory (db : Db) (cid : Nat) : Option Category :=
  db.categories.find? (fun c => c.id == cid)

/-- The row predicate of the queryset filter in
`service.py:get_filtered_posts`:
`filter(pub_date__lte=time_now, is_published=True, category__is_published=True)`.
The `category__is_published` condition traverses the nullable `category`
foreign key with an inner join, so a row whose `category` is NULL matches no
joined row and is excluded. -/
def visibleQ (db : Db) (time_now : Int) (p : Post) : Bool :=
  decide (p.pub_date ≤ time_now) && p.is_published &&
    (match p.category with
     | none => false
     | some cid =>
       match findCategory db cid with
       | none => false
       | some c => c.is_published)

/-- The `annotate(comment_count=Count('comments'))` aggregation of
`service.py:get_filtered_posts`: the number of rows of the comment table whose
`comment_post` foreign key is this post, with no condition on the comment. -/
def comment_count (db : Db) (p : Post) : Nat :=
  (db.comments.filter (fun c => c.comment_post == p.id)).length

/-- `service.py` line 62, `posts = posts or Post.objects.all()`: a missing
argument, and also an empty queryset (falsy in Python), fall back to the full
post table. -/
def postsOrDefault (db : Db) (posts : Option (List Post)) : List Post :=
  match posts with
  | none => db.posts
  | some ps => if ps.isEmpty then db.posts else ps

/-- Descending `pub_date` ordering used by `order_by('-pub_date')`, on posts
paired with their optional `comment_count` annotation. -/
def pubDateDesc (x y : Post × Option Nat) : Prop :=
  y.1.pub_date ≤ x.1.pub_date

instance : DecidableRel pubDateDesc := fun x y =>
  inferInstanceAs (Decidable (y.1.pub_date ≤ x.1.pub_date))

instance : IsTotal (Post × Option Nat) pubDateDesc :=
  ⟨fun a b => le_total b.1.pub_date a.1.pub_date⟩

instance : IsTrans (Post × Option Nat) pubDateDesc :=
  ⟨fun _ _ _ h1 h2 => le_trans h2 h1⟩

/-- `service.py:get_filtered_posts`.  The input queryset (or the full table
when the input is missing or empty) is filtered by `visibleQ` when
`apply_filter` is set, each surviving post is annotated with its
`comment_count` when `apply_annotation` is set (`none` models the absent
annotation attribute), and the result is ordered by `pub_date` descending.
`select_related` only eager-loads associations and does not change the rows. -/
def get_filtered_posts (db : Db) (time_now : Int) (posts : Option (List Post))
    (apply_filter : Bool) (apply_annot : Bool) :
    List (Post × Option Nat) :=
  let base := postsOrDefault db posts
  let filtered := if apply_filter then base.filter (visibleQ db time_now) else base
  let annotated := filtered.map (fun p =>
    (p, if apply_annot then some (comment_count db p) else none))
  List.insertionSort pubDateDesc annotated

/-- How `views.py` reads the `page` query parameter: absent, a non-integer
string, or an integer. -/
inductive PageParam where
  | missing
  | invalid
  | num (n : Int)
  deriving DecidableEq, Repr

/-- Modelled from the spec: the page object returned by the framework's
`Paginator.get_page`, exposing the items on the page, the total page count,
the current page index, and the has-next / has-previous flags (spec section
4.2); the framework's paginator code is not part of this repository. -/
structure PageObj (α : Type) where
  object_list : List α
  number : Nat
  pages_total : Nat
  has_next : Bool
  has_previous : Bool
  deriving DecidableEq, Repr

/-- Modelled from the spec: total page count for `n` items at `s` per page —
`⌈n / s⌉`, with a minimum of one (an empty collection still has a first,
empty, page). -/
def num_pages (n s : Nat) : Nat := max 1 ((n + s - 1) / s)

/-- Modelled from the spec: resolution of the external page-number source —
"invalid, missing, or out-of-range values fall back to the nearest valid page
(first or last) rather than erroring" (spec section 4.2). -/
def resolve_page (param : PageParam) (np : Nat) : Nat :=
  match param with
  | .missing => 1
  | .invalid => 1
  | .num n => if n < 1 then 1 else if (np : Int) < n then np else n.toNat

/-- `service.py:paginate`: builds the framework paginator over the queryset
and returns the page selected by the request's `page` query parameter. -/
def paginate {α : Type} (queryset : List α) (param : PageParam)
    (items_per_page : Nat) : PageObj α :=
  let np := num_pages queryset.length items_per_page
  let k := resolve_page param np
  { object_list := (queryset.drop ((k - 1) * items_per_page)).take items_per_page
    number := k
    pages_total := np
    has_next := k < np
    has_previous := 1 < k }

/-- The outcome of a request handler.  `renderBoundForm t e` renders a form
bound to attempted value `t`, with field error messages iff `e`;
`renderEmptyForm` renders a fresh unbound form (no attempted values, no
errors).  `redirectLogin` is the `@login_required` redirect to the login
page. -/
inductive Response where
  | notFound
  | redirectLogin
  | redirectIndex
  | redirectPostDetail (post_id : Nat)
  | redirectProfile (username : String)
  | renderEmptyForm
  | renderBoundForm (attempted : String) (hasErrors : Bool)
  | renderConfirm
  deriving DecidableEq, Repr

/-- Validity of `CommentForm`: the single `text` field is required and the
model bounds it to 256 characters. -/
def commentFormValid (t : String) : Bool := !t.isEmpty && t.length ≤ 256

/-- Validity of `PostCreateForm`, projected onto the `text` field the
embedding tracks: the field is required. -/
def postFormValid (t : String) : Bool := !t.isEmpty

/-- Validity of `ProfileEditForm`, projected onto the `username` field the
embedding tracks: required, and unique among users other than the editor
(the `User` model's unique constraint, validated by the model form). -/
def profileFormValid (db : Db) (selfId : Nat) (newUsername : String) : Bool :=
  !newUsername.isEmpty &&
    db.users.all (fun u => u.id == selfId || u.username != newUsername)

/-- `views.py:delete_post` (with its `@login_required` decorator): look up
the post by pk (404 when absent), redirect any requester other than the
author to the post's detail page, delete on POST (the comment rows cascade)
and redirect to the index, or render the confirmation form on GET. -/
def delete_post (db : Db) (user : Option User) (post_id : Nat)
    (isPostMethod : Bool) : Response × Db :=
  match user with
  | none => (.redirectLogin, db)
  | some u =>
    match db.posts.find? (fun p => p.id == post_id) with
    | none => (.notFound, db)
    | some post =>
      if u.id != post.author then (.redirectPostDetail post.id, db)
      else if isPostMethod then
        (.redirectIndex,
          { db with
              posts := db.posts.filter (fun p => p.id != post_id),
              comments := db.comments.filter (fun c => c.comment_post != post_id) })
      else (.renderBoundForm post.text false, db)

/-- `views.py:PostUpdateView` together with `LoginRequiredMixin` and
`mixins.py:AuthorRequiredMixin`: login gate, object lookup by pk, the
author-mismatch redirect of `AuthorRequiredMixin.dispatch`, then the
framework update flow — GET renders the bound form, a valid submission saves
and redirects to the post's `get_absolute_url` (its detail page), an invalid
submission re-renders the bound form with errors.  `formText` is the
submitted `text` value, `none` on GET. -/
def postUpdateView (db : Db) (user : Option User) (pk : Nat)
    (formText : Option String) : Response × Db :=
  match user with
  | none => (.redirectLogin, db)
  | some u =>
    match db.posts.find? (fun p => p.id == pk) with
    | none => (.notFound, db)
    | some post =>
      if post.author != u.id then (.redirectPostDetail post.id, db)
      else
        match formText with
        | none => (.renderBoundForm post.text false, db)
        | some t =>
          if postFormValid t then
            (.redirectPostDetail post.id,
              { db with posts := db.posts.map (fun p =>
                  if p.id == pk then { p with text := t } else p) })
          else (.renderBoundForm t true, db)

/-- `views.py:edit_comment`, the combined comment edit/delete handler.  It
carries no `@login_required` decorator, so an anonymous requester reaches the
handler and `comment.author != request.user` holds for it against every
comment.  `isDeletePath` is the `'/delete_comment/' in request.path` check;
`formText` is the submitted `text` on POST, `none` on GET. -/
def edit_comment (db : Db) (user : Option User) (post_id comment_id : Nat)
    (isDeletePath : Bool) (isPostMethod : Bool) (formText : Option String) :
    Response × Db :=
  match db.posts.find? (fun p => p.id == post_id) with
  | none => (.notFound, db)
  | some post =>
    match db.comments.find?
        (fun c => c.id == comment_id && c.comment_post == post.id) with
    | none => (.notFound, db)
    | some comment =>
      if (match user with
          | none => true
          | some u => comment.author != u.id) then
        (.redirectPostDetail post.id, db)
      else if isDeletePath then
        if isPostMethod then
          (.redirectPostDetail post.id,
            { db with comments :=
                db.comments.filter (fun c => c.id != comment_id) })
        else (.renderConfirm, db)
      else
        match formText with
        | none => (.renderBoundForm comment.text false, db)
        | some t =>
          if commentFormValid t then
            (.redirectPostDetail post.id,
              { db with comments := db.comments.map (fun c =>
                  if c.id == comment_id then { c with text := t } else c) })
          else (.renderBoundForm t true, db)

/-- `views.py:edit_profile` (with `@login_required`): a bound form is built
from `request.POST`; a valid submission saves and redirects to the updated
profile, but in the `else` branch the bound form is replaced by a fresh
unbound `ProfileEditForm(instance=request.user)` before rendering, so a
failed validation renders the pristine form.  `formUsername` is the
submitted `username`, `none` on GET. -/
def edit_profile (db : Db) (user : Option User) (formUsername : Option String) :
    Response × Db :=
  match user with
  | none => (.redirectLogin, db)
  | some u =>
    match formUsername with
    | none => (.renderEmptyForm, db)
    | some newName =>
      if profileFormValid db u.id newName then
        (.redirectProfile newName,
          { db with users := db.users.map (fun v =>
              if v.id == u.id then { v with username := newName } else v) })
      else (.renderEmptyForm, db)

/-- `views.py:PostDetailView.get_object`: for an authenticated viewer, first
an exact lookup `(id == post_id, author == viewer)` returned unfiltered when
it hits; otherwise (the local variable now being `None`, or the untouched
full queryset for an anonymous viewer) `get_object_or_404` over
`get_filtered_posts(posts, apply_filter=True, apply_annotation=False)`,
`none` modelling the 404. -/
def post_detail_get_object (db : Db) (time_now : Int) (user : Option User)
    (post_id : Nat) : Option Post :=
  match user with
  | some u =>
    match db.posts.find? (fun p => p.id == post_id && p.author == u.id) with
    | some p => some p
    | none =>
      ((get_filtered_posts db time_now none true false).map Prod.fst).find?
        (fun p => p.id == post_id)
  | none =>
    ((get_filtered_posts db time_now (some db.posts) true false).map
      Prod.fst).find? (fun p => p.id == post_id)

/-! ### Helper lemmas -/

/-- Passing the full post table explicitly is the same as the default. -/
theorem postsOrDefault_self (db : Db) :
    postsOrDefault db (some db.posts) = db.posts := by
  unfold postsOrDefault
  exact ite_self _

/-- Membership of a post among the first components of `get_filtered_posts`
is membership of the (possibly filtered) base collection: the annotation map
and the sort permute and decorate but never add or drop posts. -/
theorem mem_map_fst_get_filtered (db : Db) (time_now : Int)
    (posts : Option (List Post)) (f a : Bool) (p : Post) :
    p ∈ (get_filtered_posts db time_now posts f a).map Prod.fst ↔
      p ∈ (if f then (postsOrDefault db posts).filter (visibleQ db time_now)
           else postsOrDefault db posts) := by
  simp only [get_filtered_posts]
  rw [List.Perm.mem_iff ((List.perm_insertionSort pubDateDesc _).map Prod.fst)]
  simp [List.mem_map]

/-- The queryset row predicate of `get_filtered_posts`, unfolded: the date
bound, the post's own flag, and a resolvable, published category.  A post
whose `category` is NULL satisfies no branch of the category condition. -/
theorem visibleQ_iff (db : Db) (time_now : Int) (p : Post) :
    visibleQ db time_now p = true ↔
      p.pub_date ≤ time_now ∧ p.is_published = true ∧
        ∃ cid c, p.category = some cid ∧ findCategory db cid = some c ∧
          c.is_published = true := by
  unfold visibleQ
  cases hcat : p.category with
  | none => simp
  | some cid =>
    cases hfind : findCategory db cid with
    | none => simp [hfind]
    | some c => simp [hfind, and_assoc]

/-- Rewriting every comment's `is_published` flag changes no comment's
`comment_post` reference, hence no per-post comment cardinality. -/
theorem length_filter_set_published (l : List Comment) (g : Comment → Bool)
    (pid : Nat) :
    ((l.map (fun c => { c with is_published := g c })).filter
        (fun c => c.comment_post == pid)).length =
      (l.filter (fun c => c.comment_post == pid)).length := by
  induction l with
  | nil => rfl
  | cons c l ih =>
    by_cases h : c.comment_post == pid <;>
      simp [List.filter_cons, h, ih]

/-! ### Concrete fixtures -/

/-- A published, past-dated post with a NULL category. -/
def c1Post : Post :=
  { id := 1, author := 1, text := "t", pub_date := 0, is_published := true,
    category := none, location := none }

def c1Db : Db :=
  { users := [{ id := 1, username := "u", is_staff := false }],
    categories := [], posts := [c1Post], comments := [] }

def c1wCat : Category := { id := 7, slug := "travel", is_published := true }

def c1wPost : Post :=
  { id := 2, author := 1, text := "t", pub_date := 3, is_published := true,
    category := some 7, location := none }

def c1wDb : Db :=
  { users := [], categories := [c1wCat], posts := [c1wPost], comments := [] }

/-! ### Claim theorems -/

/-- C1 counterexample: a post that is published, past-dated and has a NULL
category — which the claim says is retained, the category check passing
vacuously — is dropped by `get_filtered_posts` with the filter applied,
because `category__is_published=True` joins away NULL categories. -/
theorem C1_counterexample :
    c1Post.pub_date ≤ 5 ∧ c1Post.is_published = true ∧
    c1Post.category = none ∧ c1Post ∈ c1Db.posts ∧
    c1Post ∉ (get_filtered_posts c1Db 5 (some c1Db.posts) true true).map
      Prod.fst := by
  decide

/-- C1 (amended): with the visibility filter applied, a post of the
(nonempty) input collection is retained iff its `pub_date` is at most `now`,
it is published, and it has a category that resolves and is published; a
post whose category is NULL is excluded rather than passing vacuously. -/
theorem C1_visibility_filter_mem (db : Db) (time_now : Int) (ps : List Post)
    (p : Post) (apply_annot : Bool) (hne : ps ≠ []) :
    (p ∈ (get_filtered_posts db time_now (some ps) true apply_annot).map
        Prod.fst) ↔
      p ∈ ps ∧ p.pub_date ≤ time_now ∧ p.is_published = true ∧
        ∃ cid c, p.category = some cid ∧ findCategory db cid = some c ∧
          c.is_published = true := by
  have hps : postsOrDefault db (some ps) = ps := by
    cases ps with
    | nil => exact absurd rfl hne
    | cons x xs => rfl
  rw [mem_map_fst_get_filtered, if_pos rfl, hps, List.mem_filter,
    visibleQ_iff]

/-- Witness for C1 (amended): a published post in a published category is
retained by the filter. -/
theorem C1_visibility_filter_mem_witness :
    c1wPost ∈ (get_filtered_posts c1wDb 10 (some [c1wPost]) true true).map
      Prod.fst :=
  (C1_visibility_filter_mem c1wDb 10 [c1wPost] c1wPost true (by decide)).mpr
    ⟨by decide, by decide, by decide, 7, c1wCat, by decide, by decide,
      by decide⟩

/-- C4: page `k` of a valid page number holds `min(S, N - (k-1)·S)` items,
an integer page number below 1 resolves to the first page, one above the
page count resolves to the last page, and a missing or non-integer page
number resolves to the first page — never an error. -/
theorem C4_paginate_pages (α : Type) (items : List α) (S k : Nat) (m n : Int)
    (hS : 0 < S) (hk1 : 1 ≤ k) (hk2 : k ≤ num_pages items.length S)
    (hm : m < 1) (hn : (num_pages items.length S : Int) < n) :
    (paginate items (.num (k : Int)) S).object_list.length
        = min S (items.length - (k - 1) * S) ∧
    (paginate items (.num (k : Int)) S).number = k ∧
    (paginate items (.num m) S).number = 1 ∧
    (paginate items (.num n) S).number = num_pages items.length S ∧
    (paginate items .missing S).number = 1 ∧
    (paginate items .invalid S).number = 1 := by
  have hres : resolve_page (.num (k : Int)) (num_pages items.length S) = k := by
    simp only [resolve_page]
    rw [if_neg (by exact_mod_cast not_lt.2 hk1),
      if_neg (by exact_mod_cast not_lt.2 hk2)]
    exact Int.toNat_natCast k
  refine ⟨?_, ?_, ?_, ?_, rfl, rfl⟩
  · simp [paginate, hres, List.length_take, List.length_drop]
  · simp [paginate, hres]
  · simp [paginate, resolve_page, if_pos hm]
  · have hnp1 : (1 : Int) ≤ (num_pages items.length S : Int) := by
      exact_mod_cast le_max_left 1 ((items.length + S - 1) / S)
    have h1 : ¬ n < 1 := not_lt.2 (le_trans hnp1 (le_of_lt hn))
    simp [paginate, resolve_page, h1, hn]

/-- Witness for C4 at three items, page size two, page two. -/
theorem C4_paginate_pages_witness :
    (paginate [0, 1, 2] (.num ((2 : Nat) : Int)) 2).object_list.length
        = min 2 ([0, 1, 2].length - (2 - 1) * 2) ∧
    (paginate [0, 1, 2] (.num ((2 : Nat) : Int)) 2).number = 2 ∧
    (paginate [0, 1, 2] (.num (-1)) 2).number = 1 ∧
    (paginate [0, 1, 2] (.num 5) 2).number = num_pages [0, 1, 2].length 2 ∧
    (paginate ([0, 1, 2] : List Nat) .missing 2).number = 1 ∧
    (paginate ([0, 1, 2] : List Nat) .invalid 2).number = 1 :=
  C4_paginate_pages Nat [0, 1, 2] 2 2 (-1) 5 (by decide) (by decide)
    (by decide) (by decide) (by decide)

/-- C5: an empty input collection (empty querysets are falsy) is replaced by
the full post table before filtering, so a caller passing the posts of a
category that has none receives the filtered set of all posts in the system
rather than an empty result. -/
theorem C5_empty_input_falls_back (db : Db) (time_now : Int)
    (apply_filter apply_annot : Bool) (cid : Nat)
    (h : db.posts.filter (fun p => p.category == some cid) = []) :
    get_filtered_posts db time_now (some []) apply_filter apply_annot =
      get_filtered_posts db time_now none apply_filter apply_annot ∧
    get_filtered_posts db time_now
        (some (db.posts.filter (fun p => p.category == some cid))) true true =
      get_filtered_posts db time_now none true true := by
  have hbase : postsOrDefault db (some ([] : List Post)) =
      postsOrDefault db none := by
    simp [postsOrDefault]
  have key : ∀ f a : Bool,
      get_filtered_posts db time_now (some []) f a =
        get_filtered_posts db time_now none f a := by
    intro f a
    unfold get_filtered_posts
    rw [hbase]
  refine ⟨key _ _, ?_⟩
  rw [h]
  exact key true true

/-- Witness for C5: a database whose only post is in category 9, queried for
category 99. -/
theorem C5_empty_input_falls_back_witness :
    get_filtered_posts c1wDb 0 (some []) true true =
      get_filtered_posts c1wDb 0 none true true ∧
    get_filtered_posts c1wDb 0
        (some (c1wDb.posts.filter (fun p => p.category == some 99))) true
        true =
      get_filtered_posts c1wDb 0 none true true :=
  C5_empty_input_falls_back c1wDb 0 true true 99 (by decide)

/-- C10: for every input collection and every combination of the two boolean
switches, the list returned by `get_filtered_posts` is ordered by `pub_date`
descending. -/
theorem C10_get_filtered_posts_sorted (db : Db) (time_now : Int)
    (posts : Option (List Post)) (apply_filter apply_annot : Bool) :
    (get_filtered_posts db time_now posts apply_filter
      apply_annot).Sorted pubDateDesc :=
  List.sorted_insertionSort pubDateDesc _

def c2Author : User := { id := 1, username := "author", is_staff := false }

def c2Staff : User := { id := 2, username := "staff", is_staff := true }

def c2Post : Post :=
  { id := 1, author := 1, text := "t", pub_date := 0, is_published := true,
    category := none, location := none }

def c2Db : Db :=
  { users := [c2Author, c2Staff], categories := [], posts := [c2Post],
    comments := [] }

/-- C2: the code checks only `request.user != post.author`, so a staff
requester who is not the author is redirected to the post's detail view and
the post survives, although the handler's own docstring (and the spec) says
a staff user may delete; the author's own POST does delete. -/
theorem C2_staff_delete_redirected :
    c2Staff.is_staff = true ∧ c2Staff.id ≠ c2Post.author ∧
    delete_post c2Db (some c2Staff) 1 true = (.redirectPostDetail 1, c2Db) ∧
    (delete_post c2Db (some c2Author) 1 true).2.posts = [] := by
  decide

/-- C3: detail-view resolution — when the exact `(id, author == viewer)`
lookup hits, the post is returned unfiltered, whatever its publication state
or date; when it misses, the authenticated viewer's resolution coincides
exactly with the anonymous one, whose not-found condition (`none`) holds iff
no post with the requested id passes the visibility filter. -/
theorem C3_detail_resolution (db : Db) (time_now : Int) (u : User)
    (post_id : Nat) :
    (post_detail_get_object db time_now (some u) post_id =
      match db.posts.find? (fun q => q.id == post_id && q.author == u.id) with
      | some p => some p
      | none => post_detail_get_object db time_now none post_id) ∧
    (post_detail_get_object db time_now none post_id = none ↔
      ∀ p ∈ db.posts, p.id = post_id → visibleQ db time_now p = false) := by
  constructor
  · cases hfind : db.posts.find?
        (fun q => q.id == post_id && q.author == u.id) with
    | some p => simp [post_detail_get_object, hfind]
    | none =>
      simp only [post_detail_get_object, hfind]
      have hbase : get_filtered_posts db time_now none true false =
          get_filtered_posts db time_now (some db.posts) true false := by
        unfold get_filtered_posts
        rw [postsOrDefault_self]
        rfl
      rw [hbase]
  · simp only [post_detail_get_object]
    rw [List.find?_eq_none]
    constructor
    · intro hall p hmem hid
      cases hvq : visibleQ db time_now p with
      | false => rfl
      | true =>
        exact absurd (by simp [hid])
          (hall p ((mem_map_fst_get_filtered db time_now (some db.posts)
            true false p).mpr
            (by rw [if_pos rfl, postsOrDefault_self, List.mem_filter]
                exact ⟨hmem, hvq⟩)))
    · intro hall x hx hbeq
      have hx' := (mem_map_fst_get_filtered db time_now (some db.posts)
        true false x).mp hx
      rw [if_pos rfl, postsOrDefault_self, List.mem_filter] at hx'
      have hid : x.id = post_id := by simpa using hbeq
      have hfalse := hall x hx'.1 hid
      rw [hx'.2] at hfalse
      exact Bool.noConfusion hfalse

/-- C6: every mutation attempt — post edit, post delete, comment edit or
delete — by an authenticated user who is not the entity's author answers
with a redirect to the corresponding post detail view and leaves the
database unchanged: nothing modified, nothing deleted. -/
theorem C6_nonauthor_mutations_redirect (db : Db) (u : User)
    (post_id comment_id : Nat) (post : Post) (comment : Comment)
    (isPostMethod isDeletePath : Bool) (formText formText2 : Option String)
    (hp : db.posts.find? (fun p => p.id == post_id) = some post)
    (hpa : post.author ≠ u.id)
    (hc : db.comments.find?
        (fun c => c.id == comment_id && c.comment_post == post.id) =
      some comment)
    (hca : comment.author ≠ u.id) :
    postUpdateView db (some u) post_id formText =
        (.redirectPostDetail post.id, db) ∧
    delete_post db (some u) post_id isPostMethod =
        (.redirectPostDetail post.id, db) ∧
    edit_comment db (some u) post_id comment_id isDeletePath isPostMethod
        formText2 = (.redirectPostDetail post.id, db) := by
  have h1 : (u.id != post.author) = true := bne_iff_ne.mpr (Ne.symm hpa)
  have h2 : (post.author != u.id) = true := bne_iff_ne.mpr hpa
  have h3 : (comment.author != u.id) = true := bne_iff_ne.mpr hca
  refine ⟨?_, ?_, ?_⟩
  · simp [postUpdateView, hp, h2]
  · simp [delete_post, hp, h1]
  · simp [edit_comment, hp, hc, h3]

def c6Author : User := { id := 1, username := "a", is_staff := false }

def c6Other : User := { id := 2, username := "b", is_staff := false }

def c6Post : Post :=
  { id := 3, author := 1, text := "orig", pub_date := 0, is_published := true,
    category := none, location := none }

def c6Comment : Comment :=
  { id := 4, comment_post := 3, author := 1, text := "c",
    is_published := true }

def c6Db : Db :=
  { users := [c6Author, c6Other], categories := [], posts := [c6Post],
    comments := [c6Comment] }

/-- Witness for C6: a second user attacking another author's post and
comment is redirected each time and the store is untouched. -/
theorem C6_nonauthor_mutations_redirect_witness :
    postUpdateView c6Db (some c6Other) 3 (some "hack") =
        (.redirectPostDetail 3, c6Db) ∧
    delete_post c6Db (some c6Other) 3 true = (.redirectPostDetail 3, c6Db) ∧
    edit_comment c6Db (some c6Other) 3 4 true true (some "hack") =
        (.redirectPostDetail 3, c6Db) :=
  C6_nonauthor_mutations_redirect c6Db c6Other 3 4 c6Post c6Comment true true
    (some "hack") (some "hack") (by decide) (by decide) (by decide)
    (by decide)

def c7Post : Post :=
  { id := 1, author := 1, text := "t", pub_date := 0, is_published := true,
    category := none, location := none }

def c7Comment : Comment :=
  { id := 1, comment_post := 1, author := 1, text := "c",
    is_published := true }

def c7Db : Db :=
  { users := [{ id := 1, username := "a", is_staff := false }],
    categories := [], posts := [c7Post], comments := [c7Comment] }

/-- C7 counterexample: an unauthenticated POST to the comment-edit route is
not sent to authenticate — `edit_comment` has no login gate, the request
reaches the handler's logic and is answered with a redirect to the post's
detail view. -/
theorem C7_counterexample :
    edit_comment c7Db none 1 1 false true (some "x") =
      (.redirectPostDetail 1, c7Db) ∧
    (edit_comment c7Db none 1 1 false true (some "x")).1 ≠
      Response.redirectLogin := by
  decide

/-- C7 (amended): the comment edit/delete routes enforce no authentication:
an unauthenticated requester reaches the handler and, failing the
author-identity check, is redirected to the post's detail view — never to
the login page — with the store unchanged. -/
theorem C7_anonymous_redirected_to_detail (db : Db) (post_id comment_id : Nat)
    (post : Post) (comment : Comment) (isDeletePath isPostMethod : Bool)
    (formText : Option String)
    (hp : db.posts.find? (fun p => p.id == post_id) = some post)
    (hc : db.comments.find?
        (fun c => c.id == comment_id && c.comment_post == post.id) =
      some comment) :
    edit_comment db none post_id comment_id isDeletePath isPostMethod
        formText = (.redirectPostDetail post.id, db) ∧
    (edit_comment db none post_id comment_id isDeletePath isPostMethod
        formText).1 ≠ Response.redirectLogin := by
  have hrun : edit_comment db none post_id comment_id isDeletePath
      isPostMethod formText = (.redirectPostDetail post.id, db) := by
    simp [edit_comment, hp, hc]
  rw [hrun]
  exact ⟨rfl, by simp⟩

/-- Witness for C7 (amended): a concrete anonymous delete attempt. -/
theorem C7_anonymous_redirected_to_detail_witness :
    edit_comment c7Db none 1 1 true true none = (.redirectPostDetail 1, c7Db) ∧
    (edit_comment c7Db none 1 1 true true none).1 ≠
      Response.redirectLogin :=
  C7_anonymous_redirected_to_detail c7Db 1 1 c7Post c7Comment true true none
    (by decide) (by decide)

def c8User : User := { id := 1, username := "u", is_staff := false }

def c8Post : Post :=
  { id := 1, author := 1, text := "t", pub_date := 0, is_published := true,
    category := none, location := none }

def c8Comment : Comment :=
  { id := 2, comment_post := 1, author := 1, text := "c",
    is_published := true }

def c8Db : Db :=
  { users := [c8User], categories := [], posts := [c8Post],
    comments := [c8Comment] }

/-- C8 counterexample: an invalid profile-edit submission (empty username)
fails validation, yet the handler replaces the bound form with a fresh
unbound `ProfileEditForm` and renders it — no field-level error messages, no
attempted values — contradicting the claim for the profile-edit handler. -/
theorem C8_counterexample :
    profileFormValid c8Db c8User.id "" = false ∧
    edit_profile c8Db (some c8User) (some "") = (.renderEmptyForm, c8Db) ∧
    (edit_profile c8Db (some c8User) (some "")).1 ≠
      Response.renderBoundForm "" true := by
  decide

/-- C8 (amended): a submission that fails field validation persists nothing
and triggers no redirect everywhere; the comment and post handlers
redisplay the bound form with field errors for the attempted value, but
profile edit redisplays a fresh unbound form without errors or the
attempted values. -/
theorem C8_invalid_submission (db : Db) (u : User)
    (post_id comment_id : Nat) (post : Post) (comment : Comment) (t : String)
    (hp : db.posts.find? (fun p => p.id == post_id) = some post)
    (hpa : post.author = u.id)
    (hc : db.comments.find?
        (fun c => c.id == comment_id && c.comment_post == post.id) =
      some comment)
    (hca : comment.author = u.id)
    (hct : commentFormValid t = false) (hpt : postFormValid t = false)
    (hprof : profileFormValid db u.id t = false) :
    edit_comment db (some u) post_id comment_id false true (some t) =
        (.renderBoundForm t true, db) ∧
    postUpdateView db (some u) post_id (some t) =
        (.renderBoundForm t true, db) ∧
    edit_profile db (some u) (some t) = (.renderEmptyForm, db) := by
  refine ⟨?_, ?_, ?_⟩
  · simp [edit_comment, hp, hc, hca, hct]
  · simp [postUpdateView, hp, hpa, hpt]
  · simp [edit_profile, hprof]

/-- Witness for C8 (amended): empty-text submissions by the author, and an
empty username, all fail validation with no redirect and no persistence. -/
theorem C8_invalid_submission_witness :
    edit_comment c8Db (some c8User) 1 2 false true (some "") =
        (.renderBoundForm "" true, c8Db) ∧
    postUpdateView c8Db (some c8User) 1 (some "") =
        (.renderBoundForm "" true, c8Db) ∧
    edit_profile c8Db (some c8User) (some "") = (.renderEmptyForm, c8Db) :=
  C8_invalid_submission c8Db c8User 1 2 c8Post c8Comment "" (by decide)
    (by decide) (by decide) (by decide) (by decide) (by decide) (by decide)

/-- C9: whenever the aggregation switch is on, the annotation attached to a
post by `get_filtered_posts` is exactly the number of comment rows
referencing that post, and that number is insensitive to any rewriting of
the comments' own `is_published` flags. -/
theorem C9_comment_count_exact (db : Db) (time_now : Int)
    (posts : Option (List Post)) (apply_filter : Bool) (p : Post)
    (cnt : Option Nat) (g : Comment → Bool)
    (h : (p, cnt) ∈ get_filtered_posts db time_now posts apply_filter true) :
    cnt =
      some ((db.comments.filter (fun c => c.comment_post == p.id)).length) ∧
    ((db.comments.map (fun c => { c with is_published := g c })).filter
        (fun c => c.comment_post == p.id)).length =
      (db.comments.filter (fun c => c.comment_post == p.id)).length := by
  refine ⟨?_, length_filter_set_published db.comments g p.id⟩
  simp only [get_filtered_posts] at h
  rw [List.mem_insertionSort] at h
  obtain ⟨q, hq, heq⟩ := List.mem_map.mp h
  have hq1 : q = p := congrArg Prod.fst heq
  have hq2 : (if true = true then some (comment_count db q) else none) =
      cnt := congrArg Prod.snd heq
  subst hq1
  simpa [comment_count] using hq2.symm

def c9Post : Post :=
  { id := 1, author := 1, text := "t", pub_date := 0, is_published := false,
    category := none, location := none }

def c9Db : Db :=
  { users := [], categories := [], posts := [c9Post],
    comments :=
      [{ id := 1, comment_post := 1, author := 1, text := "a",
         is_published := true },
       { id := 2, comment_post := 1, author := 1, text := "b",
         is_published := false },
       { id := 3, comment_post := 2, author := 1, text := "c",
         is_published := true }] }

/-- Witness for C9: the post with one published and one unpublished comment
carries count two, unchanged when all flags are cleared. -/
theorem C9_comment_count_exact_witness :
    (some 2 : Option Nat) =
      some ((c9Db.comments.filter
        (fun c => c.comment_post == c9Post.id)).length) ∧
    ((c9Db.comments.map (fun c =>
        { c with is_published := (fun _ => false) c })).filter
        (fun c => c.comment_post == c9Post.id)).length =
      (c9Db.comments.filter (fun c => c.comment_post == c9Post.id)).length :=
  C9_comment_count_exact c9Db 0 (some [c9Post]) false c9Post (some 2)
    (fun _ => false) (by decide)

end Blogicum
